import Mathlib

/-!
Shallow embedding of the superagent tool layer: the skills capability gate
(util_middlewares.py), the web-research pipeline (util_tools.py and
skills/web-search/scripts/web_search.py), and the final-translate guard
(util_middlewares.py). External collaborators (metasearch backend, browser
engine, embedding model, language classifier, translator) are passed in as
explicit outcome environments; each embedded function records, besides its
return value, the resource events the specification talks about (browser
stops, tab closes, fetch dispatches).
-/

set_option autoImplicit false

/-- Embeds the `ToolUpdate` TypedDict of util_middlewares.py: a pending grant
of tool names together with the step number at which it was produced. -/
structure ToolUpdate where
  allowed_tools : List String
  step_num : Nat
  deriving DecidableEq

/-- Embeds `skills_reducer` (util_middlewares.py, lines 60-72). The Python
body builds `list(set(current + update))`, whose element order is
unspecified; we model it as `dedup` of the concatenation, which holds
exactly the same elements. All claims about the reducer are stated at the
level of membership, where the two agree. -/
def skills_reducer (current : Option ToolUpdate) (update : ToolUpdate) : ToolUpdate :=
  match current with
  | none => update
  | some c =>
      if update.step_num = c.step_num then
        { allowed_tools := (c.allowed_tools ++ update.allowed_tools).dedup
          step_num := update.step_num }
      else
        update

/-- Folding a sequence of pending grants into a current state with the
reducer, in order; this is what the runtime does when several skill loads
update the `allowed_tools_data` channel. -/
def applyGrants (c : ToolUpdate) (grants : List ToolUpdate) : ToolUpdate :=
  grants.foldl (fun st g => skills_reducer (some st) g) c

/-- Embeds the extraction
`tool_data["allowed_tools"] if tool_data else []` performed by
`SkillsMiddleware.wrap_model_call` and `awrap_model_call`. -/
def allowed_tools_names (tool_data : Option ToolUpdate) : List String :=
  match tool_data with
  | some td => td.allowed_tools
  | none => []

/-- A tool as seen by the visibility filter: the filter reads only the
`name` attribute; `desc` stands for the rest of the tool object. -/
structure LCTool where
  name : String
  desc : String
  deriving DecidableEq

/-- Embeds the tool filtering of `SkillsMiddleware.wrap_model_call`
(util_middlewares.py, lines 206-213) and `awrap_model_call` (242-249):
keep a tool when its name is among the allowed names or it is the loader. -/
def filtered_tools (tools : List LCTool) (tool_data : Option ToolUpdate) : List LCTool :=
  tools.filter fun t =>
    (allowed_tools_names tool_data).contains t.name || t.name == "tool_load_skill"

/-- How the runtime applies the `allowed_tools_data` entry of a returned
`Command.update` to the state channel: when the entry is present the
annotated reducer `skills_reducer` combines it with the current value;
when the entry is absent the channel is untouched. -/
def applyCommand (cur : Option ToolUpdate) (grant : Option ToolUpdate) : Option ToolUpdate :=
  match grant with
  | none => cur
  | some u => some (skills_reducer cur u)

/-- Modelled from the spec: `SkillMetadata` is declared in util_skills
outside src; its fields are the ones `tool_load_skill` reads
(`skill["name"]`, `skill["content"]`, `skill.get("allowed_tools")`) plus the
description shown in the system prompt. `allowed_tools` is an optional
whitespace-separated string of tool names; `none` models a missing key or a
None value, for both of which the Python `.get` yields None. -/
structure SkillMetadata where
  name : String
  description : String
  content : String
  allowed_tools : Option String
  deriving DecidableEq

/-- Worker for `pySplit`: walks the characters, accumulating the current
word reversed; whitespace closes the word, and empty words are dropped. -/
def pySplitChars : List Char → List Char → List String
  | [], acc => if acc.isEmpty then [] else [String.mk acc.reverse]
  | c :: cs, acc =>
      if c.isWhitespace then
        if acc.isEmpty then pySplitChars cs []
        else String.mk acc.reverse :: pySplitChars cs []
      else pySplitChars cs (c :: acc)

/-- Python `str.split()` with no argument: split on runs of whitespace and
drop empty pieces, so the empty string yields the empty list. Implemented
over the character list so that it evaluates by kernel reduction. -/
def pySplit (s : String) : List String :=
  pySplitChars s.toList []

/-- The observable part of the `Command` returned by `tool_load_skill`: the
content of the ToolMessage placed in `messages`, and the
`allowed_tools_data` entry of the update (`none` when the update carries no
such entry). -/
structure LoadSkillResult where
  message_content : String
  grant : Option ToolUpdate
  deriving DecidableEq

/-- Embeds `tool_load_skill` (util_middlewares.py, lines 83-132). The
Python scans `skills` in order for the first entry whose name matches; on a
hit it grants `(skill.get("allowed_tools") or "").split()` at the current
step (the running message count); on a miss it returns a message listing
the catalog names, with no `allowed_tools_data` entry in the update. -/
def tool_load_skill (skill_name : String) (skills : List SkillMetadata)
    (messages_len : Nat) : LoadSkillResult :=
  match skills.find? (fun s => s.name == skill_name) with
  | some skill =>
      { message_content := "Loaded skill: " ++ skill_name ++ "\n\n" ++ skill.content
        grant := some { allowed_tools := pySplit (skill.allowed_tools.getD "")
                        step_num := messages_len } }
  | none =>
      { message_content := "Skill \x27" ++ skill_name ++ "\x27 not found. Available skills: "
          ++ String.intercalate ", " (skills.map SkillMetadata.name)
        grant := none }

/-- Per-URL environment for `fetch_page_content`: whether
`browser.get(url, new_tab=True)` succeeds (a tab is opened), and the
outcome of the sleep/select/get_content/Readability/MarkItDown pipeline on
that tab: `some (title, text)` on success, `none` when any stage raises. -/
structure FetchEnv where
  openOk : Bool
  extract : Option (String × String)
  deriving DecidableEq

/-- Trace of one `fetch_page_content` call: the returned
(title, url, content) triple, whether a tab was opened, and how many times
`tab.close()` ran before returning. -/
structure FetchOutcome where
  result : String × String × String
  tabOpened : Bool
  tabCloses : Nat
  deriving DecidableEq

/-- Embeds `fetch_page_content` (util_tools.py lines 120-141, identical in
skills/web-search/scripts/web_search.py lines 132-146). `tab.close()`
appears only on the success path, immediately before the normal return; the
except clause returns the sentinel without closing anything. -/
def fetch_page_content (env : FetchEnv) (url : String) : FetchOutcome :=
  if env.openOk then
    match env.extract with
    | some (title, text) =>
        { result := (title, url, text), tabOpened := true, tabCloses := 1 }
    | none =>
        { result := ("NO_TITLE", url, "NO_CONTENT"), tabOpened := true, tabCloses := 0 }
  else
    { result := ("NO_TITLE", url, "NO_CONTENT"), tabOpened := false, tabCloses := 0 }

/-- Embeds the corpus-concatenation loop of `tool_web_search`
(util_tools.py lines 171-177, identical in web_search.py lines 172-178):
results whose title is the sentinel or whose content is under 500
characters are skipped; the others append a markdown block to the running
accumulator, in list order. -/
def buildCorpus (results : List (String × String × String)) : String :=
  results.foldl
    (fun md_texts r =>
      if r.1 = "NO_TITLE" ∨ r.2.2.length < 500 then md_texts
      else md_texts ++ "# " ++ r.1 ++ "\n\n" ++ r.2.2 ++ "\n\n")
    ""

/-- What the caller of the research call receives: a normal list of chunk
texts, an error-bearing string, or a raised exception escaping the call. -/
inductive CallResult where
  | chunks (texts : List String)
  | errorString (s : String)
  | fault (e : String)
  deriving DecidableEq

/-- Environment of one research call: the outcome of the metasearch
backend for the query, whether the browser engine starts, the per-URL page
environment, and the outcome of the RAG collaborator on (query, corpus). -/
structure WebSearchEnv where
  planner : String → Except String (List String)
  startOk : Bool
  fetch : String → FetchEnv
  rag : String → String → Except String (List String)

/-- Trace of one research call: the value handed to the caller, whether the
browser engine was started, how many times `browser.stop()` ran, and the
list of URL arguments on which `fetch_page_content` was dispatched. -/
structure WebSearchOutcome where
  result : CallResult
  browserStarted : Bool
  browserStops : Nat
  fetchedUrls : List String
  deriving DecidableEq

/-- Embeds `web_search` of skills/web-search/scripts/web_search.py (lines
148-189). There `get_search_urls` re-raises on a metasearch failure, so the
body raises before `browser = await zd.start(...)` binds `browser`; the
except clause catches and prepares the error string, but the finally clause
then evaluates `browser.stop()` with the local `browser` never assigned, so
an UnboundLocalError escapes instead and no engine is started or stopped.
The same happens when `zd.start` itself raises. On the started paths the
finally clause stops the engine exactly once; a RAG failure raises, is
caught by the except clause and becomes the error string. -/
def web_search (env : WebSearchEnv) (english_query : String) : WebSearchOutcome :=
  match env.planner english_query with
  | .error _ =>
      { result := .fault "UnboundLocalError: cannot access local variable \x27browser\x27"
        browserStarted := false, browserStops := 0, fetchedUrls := [] }
  | .ok search_urls =>
      if env.startOk then
        let results := search_urls.map fun url => (fetch_page_content (env.fetch url) url).result
        let md_texts := buildCorpus results
        match env.rag english_query md_texts with
        | .ok docs =>
            { result := .chunks docs, browserStarted := true, browserStops := 1
              fetchedUrls := search_urls }
        | .error e =>
            { result := .errorString ("Error web searching: " ++ e)
              browserStarted := true, browserStops := 1, fetchedUrls := search_urls }
      else
        { result := .fault "UnboundLocalError: cannot access local variable \x27browser\x27"
          browserStarted := false, browserStops := 0, fetchedUrls := [] }

/-- The value `get_search_urls` of util_tools.py hands back: a list of URL
strings on success, or — because its except clause returns instead of
re-raising — a plain error string, despite the annotated return type. -/
inductive UrlsValue where
  | urls (l : List String)
  | errStr (s : String)
  deriving DecidableEq

/-- Embeds `get_search_urls` (util_tools.py, lines 57-82): on success the
hrefs of the metasearch results; when the metasearch call raises, the
string "Error getting search urls: " followed by the exception text. -/
def get_search_urls (outcome : Except String (List String)) : UrlsValue :=
  match outcome with
  | .ok l => .urls l
  | .error e => .errStr ("Error getting search urls: " ++ e)

/-- Python iteration over the value: a list iterates its elements, a string
iterates its characters, each yielded as a one-character string. This is
what `for url in search_urls` does when `search_urls` is a string. -/
def pyIter : UrlsValue → List String
  | .urls l => l
  | .errStr s => s.toList.map Char.toString

/-- Embeds `tool_web_search` (util_tools.py, lines 143-188). Here
`get_search_urls` never raises, so control always reaches
`browser = await zd.start(...)`; when that raises the finally clause
faults on the unbound local as in `web_search`. When the engine starts,
one fetch task is created per item of `search_urls` — characters of the
error string, when the metasearch failed. A RAG failure makes RAG return
its error string, whose character-wise iteration under `.page_content`
raises AttributeError, caught by the except clause; either way the finally
clause stops the engine exactly once. -/
def tool_web_search (env : WebSearchEnv) (english_query : String) : WebSearchOutcome :=
  let search_urls := get_search_urls (env.planner english_query)
  if env.startOk then
    let url_items := pyIter search_urls
    let results := url_items.map fun url => (fetch_page_content (env.fetch url) url).result
    let md_texts := buildCorpus results
    match env.rag english_query md_texts with
    | .ok docs =>
        { result := .chunks docs, browserStarted := true, browserStops := 1
          fetchedUrls := url_items }
    | .error _ =>
        { result := .errorString
            "Error web searching: \x27str\x27 object has no attribute \x27page_content\x27"
          browserStarted := true, browserStops := 1, fetchedUrls := url_items }
  else
    { result := .fault "UnboundLocalError: cannot access local variable \x27browser\x27"
      browserStarted := false, browserStops := 0, fetchedUrls := [] }

/-- Concrete research-call environment in which the metasearch backend
raises while everything else behaves: the engine starts, every page
navigation fails (the sentinel comes back), and RAG on the empty corpus
returns an empty document list. -/
def envPlannerRaises : WebSearchEnv :=
  { planner := fun _ => .error "timeout"
    startOk := true
    fetch := fun _ => { openOk := false, extract := none }
    rag := fun _ _ => .ok [] }

/-- A conversation message as the final-translate middleware sees it: only
whether it is an AIMessage and its content matter. -/
inductive Msg where
  | human (content : String)
  | ai (content : String)
  | toolMsg (content : String)
  deriving DecidableEq

/-- The content attribute of a message. -/
def Msg.content : Msg → String
  | .human c => c
  | .ai c => c
  | .toolMsg c => c

/-- Whether the message is an AIMessage. -/
def Msg.isAI : Msg → Bool
  | .ai _ => true
  | _ => false

/-- Embeds `FinalTranslateState`: the detected user language (absent until
`before_agent` stores it; the code reads it with default "en") and the
conversation history. -/
structure FTState where
  user_lang_code : Option String
  messages : List Msg
  deriving DecidableEq

/-- Python `target_lang.split('-')[0]`: the part of a language code before
the first dash. Implemented over the character list so that it evaluates by
kernel reduction. -/
def primarySubtag (lang : String) : String :=
  String.mk (lang.toList.takeWhile (fun c => !(c == '-')))

/-- Python `s.startswith(pfx)`, modelled at the character-list level. -/
def pyStartswith (s pfx : String) : Bool :=
  pfx.toList.isPrefixOf s.toList

/-- Embeds `FinalTranslateMiddleware.after_agent` (util_middlewares.py,
lines 330-360). `classify` models `langid.classify(...)[0]`; `translate`
models `_translate_text`, with `.error` for a raised translation failure,
which the except clause swallows. The result is the state as it stands when
the hook returns: `none` models the uncaught IndexError on an empty
history. When the guard translates, the Python assigns
`last_message.content = ...` through the alias obtained from
`state["messages"][-1]`, so the stored final message itself is overwritten
even though the hook returns None; the model rebuilds the history with the
last message replaced accordingly. -/
def after_agent (classify : String → String)
    (translate : String → String → Except String String)
    (state : FTState) : Option FTState :=
  let target_lang := state.user_lang_code.getD "en"
  match state.messages.getLast? with
  | none => none
  | some last_message =>
      if !last_message.isAI || last_message.content == "" then
        some state
      else
        let response_text := last_message.content
        let response_lang := classify response_text
        if !(pyStartswith response_lang (primarySubtag target_lang)) then
          match translate response_text target_lang with
          | .ok translated =>
              some { state with messages := state.messages.dropLast ++ [Msg.ai translated] }
          | .error _ => some state
        else
          some state

/-- Concrete classifier for the translation scenario: English for the
assistant reply, Chinese otherwise. -/
def c9_classify : String → String := fun s => if s = "Hello" then "en" else "zh"

/-- Concrete translator for the translation scenario. -/
def c9_translate : String → String → Except String String := fun _ _ => .ok "你好"

/-- Concrete state for the translation scenario: the user wrote Chinese,
the assistant answered in English. -/
def c9_state : FTState :=
  { user_lang_code := some "zh", messages := [.human "你好", .ai "Hello"] }

/-! ## Theorems -/

theorem applyGrants_same_step (c : ToolUpdate) (grants : List ToolUpdate)
    (hs : ∀ g ∈ grants, g.step_num = c.step_num) :
    (applyGrants c grants).step_num = c.step_num ∧
    ∀ x, x ∈ (applyGrants c grants).allowed_tools ↔
      x ∈ c.allowed_tools ∨ ∃ g ∈ grants, x ∈ g.allowed_tools := by
  induction grants generalizing c with
  | nil => simp [applyGrants]
  | cons g gs ih =>
      have hg : g.step_num = c.step_num := hs g (List.mem_cons_self g gs)
      have hred : skills_reducer (some c) g =
          { allowed_tools := (c.allowed_tools ++ g.allowed_tools).dedup
            step_num := g.step_num } := by
        simp [skills_reducer, hg]
      have hstep : (skills_reducer (some c) g).step_num = c.step_num := by
        rw [hred]; exact hg
      have happ : applyGrants c (g :: gs) = applyGrants (skills_reducer (some c) g) gs := rfl
      have hs' : ∀ g' ∈ gs, g'.step_num = (skills_reducer (some c) g).step_num := by
        intro g' hg'
        rw [hstep]
        exact hs g' (List.mem_cons_of_mem _ hg')
      obtain ⟨ih1, ih2⟩ := ih (skills_reducer (some c) g) hs'
      constructor
      · rw [happ, ih1, hstep]
      · intro x
        rw [happ, ih2 x, hred]
        simp [List.mem_dedup, List.mem_append, or_assoc]

/-- C1: merging any sequence of pending grants that all carry the current
step number yields an allowed-tools set equal to the union of the current
set and the tool sets of the grants, keeps the step, and the resulting set
does not depend on the order in which the grants are merged. -/
theorem claim_C1 (c : ToolUpdate) (grants : List ToolUpdate)
    (hs : ∀ g ∈ grants, g.step_num = c.step_num) :
    (applyGrants c grants).step_num = c.step_num ∧
    (∀ x, x ∈ (applyGrants c grants).allowed_tools ↔
      x ∈ c.allowed_tools ∨ ∃ g ∈ grants, x ∈ g.allowed_tools) ∧
    (∀ grants', grants.Perm grants' →
      ∀ x, x ∈ (applyGrants c grants').allowed_tools ↔
        x ∈ (applyGrants c grants).allowed_tools) := by
  obtain ⟨h1, h2⟩ := applyGrants_same_step c grants hs
  refine ⟨h1, h2, ?_⟩
  intro grants' hperm x
  have hs' : ∀ g ∈ grants', g.step_num = c.step_num := fun g hg =>
    hs g (hperm.mem_iff.mpr hg)
  obtain ⟨_, h2'⟩ := applyGrants_same_step c grants' hs'
  rw [h2' x, h2 x]
  refine or_congr Iff.rfl ⟨?_, ?_⟩
  · rintro ⟨g, hg, hx⟩; exact ⟨g, hperm.mem_iff.mpr hg, hx⟩
  · rintro ⟨g, hg, hx⟩; exact ⟨g, hperm.mem_iff.mp hg, hx⟩

/-- Witness for C1: two parallel grants at step 3 merged into a step-3
state. -/
theorem claim_C1_witness :
    (∀ g ∈ [ToolUpdate.mk ["b"] 3, ToolUpdate.mk ["a", "c"] 3],
        g.step_num = (ToolUpdate.mk ["a"] 3).step_num) ∧
    ((applyGrants (ToolUpdate.mk ["a"] 3)
        [ToolUpdate.mk ["b"] 3, ToolUpdate.mk ["a", "c"] 3]).step_num
          = (ToolUpdate.mk ["a"] 3).step_num ∧
      (∀ x, x ∈ (applyGrants (ToolUpdate.mk ["a"] 3)
          [ToolUpdate.mk ["b"] 3, ToolUpdate.mk ["a", "c"] 3]).allowed_tools ↔
        x ∈ (ToolUpdate.mk ["a"] 3).allowed_tools ∨
          ∃ g ∈ [ToolUpdate.mk ["b"] 3, ToolUpdate.mk ["a", "c"] 3],
            x ∈ g.allowed_tools) ∧
      (∀ grants', ([ToolUpdate.mk ["b"] 3, ToolUpdate.mk ["a", "c"] 3]).Perm grants' →
        ∀ x, x ∈ (applyGrants (ToolUpdate.mk ["a"] 3) grants').allowed_tools ↔
          x ∈ (applyGrants (ToolUpdate.mk ["a"] 3)
            [ToolUpdate.mk ["b"] 3, ToolUpdate.mk ["a", "c"] 3]).allowed_tools)) :=
  ⟨by decide, claim_C1 (ToolUpdate.mk ["a"] 3)
    [ToolUpdate.mk ["b"] 3, ToolUpdate.mk ["a", "c"] 3] (by decide)⟩

/-- C2: when no prior grant exists, or the incoming grant carries a step
number different from the current one, the reducer returns the new grant
itself: the old tool set is fully replaced and the step becomes the new
step. -/
theorem claim_C2 (current : Option ToolUpdate) (update : ToolUpdate)
    (h : current = none ∨ ∃ c, current = some c ∧ update.step_num ≠ c.step_num) :
    skills_reducer current update = update := by
  rcases h with h | ⟨c, rfl, hne⟩
  · rw [h]; rfl
  · simp [skills_reducer, hne]

/-- Witness for C2: a step-2 grant replacing a step-1 state. -/
theorem claim_C2_witness :
    (some (ToolUpdate.mk ["x", "y"] 1) = none ∨
      ∃ c, some (ToolUpdate.mk ["x", "y"] 1) = some c ∧
        (ToolUpdate.mk ["z"] 2).step_num ≠ c.step_num) ∧
    skills_reducer (some (ToolUpdate.mk ["x", "y"] 1)) (ToolUpdate.mk ["z"] 2)
      = ToolUpdate.mk ["z"] 2 :=
  ⟨Or.inr ⟨ToolUpdate.mk ["x", "y"] 1, rfl, by decide⟩,
    claim_C2 _ _ (Or.inr ⟨ToolUpdate.mk ["x", "y"] 1, rfl, by decide⟩)⟩

/-- C3: the tools offered to the model are exactly the members of the full
tool list whose name is allowed or equals the loader name
"tool_load_skill"; in particular every tool of the full list named like the
loader survives the filter whatever the gate state, including the no-grant
state. -/
theorem claim_C3 (tools : List LCTool) (tool_data : Option ToolUpdate) :
    (∀ t, t ∈ filtered_tools tools tool_data ↔
        t ∈ tools ∧ (t.name ∈ allowed_tools_names tool_data ∨ t.name = "tool_load_skill")) ∧
    (∀ t ∈ tools, t.name = "tool_load_skill" → t ∈ filtered_tools tools tool_data) := by
  have hmem : ∀ t, t ∈ filtered_tools tools tool_data ↔
      t ∈ tools ∧ (t.name ∈ allowed_tools_names tool_data ∨ t.name = "tool_load_skill") := by
    intro t
    simp [filtered_tools, List.mem_filter]
  exact ⟨hmem, fun t ht hn => (hmem t).mpr ⟨ht, Or.inr hn⟩⟩

/-- Witness for C3: with no grant in place, the loader tool passes the
filter. -/
theorem claim_C3_witness :
    LCTool.mk "tool_load_skill" "loader" ∈
      filtered_tools
        [LCTool.mk "tool_load_skill" "loader", LCTool.mk "tool_web_search" "ws"] none :=
  (claim_C3 [LCTool.mk "tool_load_skill" "loader", LCTool.mk "tool_web_search" "ws"]
      none).2 _ (by decide) rfl

theorem buildCorpus_foldl (results : List (String × String × String)) (acc : String) :
    results.foldl
      (fun md_texts r =>
        if r.1 = "NO_TITLE" ∨ r.2.2.length < 500 then md_texts
        else md_texts ++ "# " ++ r.1 ++ "\n\n" ++ r.2.2 ++ "\n\n") acc
    = acc ++ String.join ((results.filter
        (fun r => decide (r.1 ≠ "NO_TITLE" ∧ 500 ≤ r.2.2.length))).map
      (fun r => "# " ++ r.1 ++ "\n\n" ++ r.2.2 ++ "\n\n")) := by
  induction results generalizing acc with
  | nil =>
      apply String.ext
      simp [String.data_append, String.data_join]
  | cons r rs ih =>
      have hdec : (decide (r.1 ≠ "NO_TITLE" ∧ 500 ≤ r.2.2.length))
          = !decide (r.1 = "NO_TITLE" ∨ r.2.2.length < 500) := by
        rw [← decide_not, decide_eq_decide]
        constructor
        · rintro ⟨h1, h2⟩ (h | h)
          · exact h1 h
          · omega
        · intro h
          refine ⟨fun he => h (Or.inl he), ?_⟩
          by_contra hlt
          exact h (Or.inr (by omega))
      by_cases hcond : r.1 = "NO_TITLE" ∨ r.2.2.length < 500
      · rw [List.foldl_cons, if_pos hcond, ih, List.filter_cons]
        rw [hdec, decide_eq_true hcond]
        rfl
      · rw [List.foldl_cons, if_neg hcond, ih, List.filter_cons]
        rw [hdec, decide_eq_false hcond]
        apply String.ext
        simp [String.data_append, String.data_join, List.append_assoc]

/-- C6: the corpus equals the concatenation, in fetch-list order, of the
block "# " ++ title ++ "\n\n" ++ text ++ "\n\n" for exactly those results
whose title is not "NO_TITLE" and whose text holds at least 500
characters; dropped results contribute nothing. -/
theorem claim_C6 (results : List (String × String × String)) :
    buildCorpus results =
      String.join ((results.filter
          (fun r => decide (r.1 ≠ "NO_TITLE" ∧ 500 ≤ r.2.2.length))).map
        (fun r => "# " ++ r.1 ++ "\n\n" ++ r.2.2 ++ "\n\n")) := by
  unfold buildCorpus
  rw [buildCorpus_foldl results "", String.empty_append]

/-- C7 counterexample: when the tab opens but a later stage of the fetch
fails (the sentinel result is produced), the tab is not closed before the
return, refuting teardown on every sentinel-yielding failure path. -/
theorem claim_C7_counterexample :
    ¬ ((fetch_page_content { openOk := true, extract := none }
          "https://example.com").tabOpened = true →
        1 ≤ (fetch_page_content { openOk := true, extract := none }
          "https://example.com").tabCloses) := by
  decide

/-- C7 as amended: the tab is closed exactly once, and only, on the full
success path; on any failure path the sentinel is returned without a
close (and when opening fails no tab exists at all). The opened flag
matches whether navigation succeeded. -/
theorem claim_C7 (env : FetchEnv) (url : String) :
    (fetch_page_content env url).tabCloses =
      (if env.openOk = true ∧ env.extract.isSome = true then 1 else 0) ∧
    (fetch_page_content env url).tabOpened = env.openOk := by
  obtain ⟨o, e⟩ := env
  cases o <;> rcases e with _ | ⟨t, c⟩ <;> simp [fetch_page_content]

/-- C4: evaluating the research call of the skill script in the
environment where the metasearch backend raises before the engine starts:
the engine is never started, its release runs zero times rather than
exactly once, and an UnboundLocalError escapes the call in place of the
intended error string — the finally clause evaluates browser.stop() on a
local that was never assigned. -/
theorem claim_C4_failing_eval :
    (web_search envPlannerRaises "capital of France").browserStops = 0 ∧
    (web_search envPlannerRaises "capital of France").browserStarted = false ∧
    (web_search envPlannerRaises "capital of France").result =
      CallResult.fault "UnboundLocalError: cannot access local variable \x27browser\x27" :=
  ⟨rfl, rfl, rfl⟩

/-- C5: evaluating `tool_web_search` in the environment where the
metasearch backend raises: the call does not abort — the error string
returned by get_search_urls is iterated character by character as URLs,
the engine is started, one fetch is dispatched per character (34 of them,
the first three being "E", "r", "r"), and with every such fetch failing
the caller receives a normal empty chunk list rather than an
error-bearing string. -/
theorem claim_C5_failing_eval :
    (tool_web_search envPlannerRaises "capital of France").fetchedUrls.length = 34 ∧
    (tool_web_search envPlannerRaises "capital of France").fetchedUrls.take 3
      = ["E", "r", "r"] ∧
    (tool_web_search envPlannerRaises "capital of France").browserStarted = true ∧
    (tool_web_search envPlannerRaises "capital of France").result = CallResult.chunks [] := by
  refine ⟨?_, ?_, ?_, ?_⟩ <;> rfl

/-- C8: loading a skill name absent from the catalog returns a Command
whose update carries no grant — so the gate state channel is left exactly
as it was for every current value — and whose ordinary tool message lists
all skill names currently in the catalog. -/
theorem claim_C8 (skill_name : String) (skills : List SkillMetadata) (messages_len : Nat)
    (h : skill_name ∉ skills.map SkillMetadata.name) :
    (tool_load_skill skill_name skills messages_len).grant = none ∧
    (∀ cur, applyCommand cur (tool_load_skill skill_name skills messages_len).grant = cur) ∧
    (tool_load_skill skill_name skills messages_len).message_content =
      "Skill \x27" ++ skill_name ++ "\x27 not found. Available skills: "
        ++ String.intercalate ", " (skills.map SkillMetadata.name) := by
  have hfind : skills.find? (fun s => s.name == skill_name) = none := by
    rw [List.find?_eq_none]
    intro s hs
    simp only [beq_iff_eq]
    intro he
    exact h (by rw [← he]; exact List.mem_map_of_mem _ hs)
  refine ⟨?_, ?_, ?_⟩ <;> simp [tool_load_skill, hfind, applyCommand]

/-- Witness for C8 on a one-skill catalog and an unknown name. -/
theorem claim_C8_witness :
    "nonexistent" ∉
      ([SkillMetadata.mk "web-research" "d" "body" (some "tool_web_search")]).map
        SkillMetadata.name ∧
    ((tool_load_skill "nonexistent"
        [SkillMetadata.mk "web-research" "d" "body" (some "tool_web_search")] 4).grant
          = none ∧
      (∀ cur, applyCommand cur (tool_load_skill "nonexistent"
        [SkillMetadata.mk "web-research" "d" "body" (some "tool_web_search")] 4).grant
          = cur) ∧
      (tool_load_skill "nonexistent"
        [SkillMetadata.mk "web-research" "d" "body" (some "tool_web_search")] 4).message_content
        = "Skill \x27" ++ "nonexistent" ++ "\x27 not found. Available skills: "
          ++ String.intercalate ", "
            (([SkillMetadata.mk "web-research" "d" "body" (some "tool_web_search")]).map
              SkillMetadata.name)) :=
  ⟨by decide, claim_C8 "nonexistent"
    [SkillMetadata.mk "web-research" "d" "body" (some "tool_web_search")] 4 (by decide)⟩

/-- C9: evaluating `after_agent` at a history whose user message is
Chinese and whose final assistant message is English, with a succeeding
translator: the stored history itself comes out changed — the final
AIMessage as stored now holds the translated text — because the Python
assigns to the content of the aliased message object, refuting the claim
that the underlying history is left untouched. -/
theorem claim_C9_failing_eval :
    after_agent c9_classify c9_translate c9_state =
      some (FTState.mk (some "zh") [Msg.human "你好", Msg.ai "你好"]) ∧
    (after_agent c9_classify c9_translate c9_state).map FTState.messages ≠
      some c9_state.messages :=
  ⟨rfl, by decide⟩

/-- C10: loading a catalog skill whose allowed_tools field is missing,
None, or the empty string produces a grant carrying the empty tool list;
merged at a step different from the current one it replaces the state with
the empty set, so the next filtering pass keeps exactly the tools named
like the loader. -/
theorem claim_C10 (skill_name : String) (skills : List SkillMetadata)
    (skill : SkillMetadata) (messages_len : Nat) (cur : ToolUpdate)
    (hfind : skills.find? (fun s => s.name == skill_name) = some skill)
    (hempty : skill.allowed_tools = none ∨ skill.allowed_tools = some "")
    (hstep : messages_len ≠ cur.step_num) :
    (tool_load_skill skill_name skills messages_len).grant =
      some (ToolUpdate.mk [] messages_len) ∧
    applyCommand (some cur) (tool_load_skill skill_name skills messages_len).grant =
      some (ToolUpdate.mk [] messages_len) ∧
    (∀ tools, filtered_tools tools
        (applyCommand (some cur) (tool_load_skill skill_name skills messages_len).grant) =
      tools.filter (fun t => t.name == "tool_load_skill")) := by
  have hsplit : pySplit ((skill.allowed_tools).getD "") = [] := by
    rcases hempty with h | h <;> rw [h] <;> rfl
  have hgrant : (tool_load_skill skill_name skills messages_len).grant =
      some (ToolUpdate.mk [] messages_len) := by
    simp [tool_load_skill, hfind, hsplit]
  have happly : applyCommand (some cur) (tool_load_skill skill_name skills messages_len).grant =
      some (ToolUpdate.mk [] messages_len) := by
    rw [hgrant]
    simp [applyCommand, skills_reducer, hstep]
  refine ⟨hgrant, happly, ?_⟩
  intro tools
  rw [happly]
  simp [filtered_tools, allowed_tools_names]

/-- Witness for C10: loading a skill with no allowed_tools field at step 7
over a step-5 grant of the web-search tool revokes everything but the
loader. -/
theorem claim_C10_witness :
    ([SkillMetadata.mk "summarize-content" "d" "TEMPLATE" none]).find?
        (fun s => s.name == "summarize-content")
      = some (SkillMetadata.mk "summarize-content" "d" "TEMPLATE" none) ∧
    ((SkillMetadata.mk "summarize-content" "d" "TEMPLATE" none).allowed_tools = none ∨
      (SkillMetadata.mk "summarize-content" "d" "TEMPLATE" none).allowed_tools = some "") ∧
    (7 : Nat) ≠ (ToolUpdate.mk ["tool_web_search"] 5).step_num ∧
    ((tool_load_skill "summarize-content"
        [SkillMetadata.mk "summarize-content" "d" "TEMPLATE" none] 7).grant =
      some (ToolUpdate.mk [] 7) ∧
    applyCommand (some (ToolUpdate.mk ["tool_web_search"] 5))
        (tool_load_skill "summarize-content"
          [SkillMetadata.mk "summarize-content" "d" "TEMPLATE" none] 7).grant =
      some (ToolUpdate.mk [] 7) ∧
    (∀ tools, filtered_tools tools
        (applyCommand (some (ToolUpdate.mk ["tool_web_search"] 5))
          (tool_load_skill "summarize-content"
            [SkillMetadata.mk "summarize-content" "d" "TEMPLATE" none] 7).grant) =
      tools.filter (fun t => t.name == "tool_load_skill"))) :=
  ⟨by decide, Or.inl rfl, by decide,
    claim_C10 "summarize-content"
      [SkillMetadata.mk "summarize-content" "d" "TEMPLATE" none]
      (SkillMetadata.mk "summarize-content" "d" "TEMPLATE" none)
      7 (ToolUpdate.mk ["tool_web_search"] 5)
      (by decide) (Or.inl rfl) (by decide)⟩
